import Mathlib

/-!
Verification of the machine-profile resolution and endpoint-adjustment routine
of `minio_utils/setup_minio_client.py` (class `MinioConfig`).

Shallow embedding notes:
* Python values that arrive from `json.load` are modelled by the `Json` type;
  Python dictionaries become association lists (`List (String × Json)`), with
  `dict.get` modelled by first-match lookup (`dictGet`).
* Python truthiness (`if not x`, `all([...])`) is modelled by `Json.truthy`.
* File I/O and DNS resolution are external effects: the outcome of `json.load`
  and of the two `socket.gethostbyname` calls are passed in as parameters
  (`Option Json` for the parse result, `Option String` for each resolution,
  `none` meaning the call raised `JSONDecodeError` / `socket.gaierror`).
* Python methods mutate `self` and may then raise; each method is therefore a
  function `MinioConfig → ... → MinioConfig × Option MErr` returning the state
  as it is after the call together with the exception raised, if any.
-/

/-- JSON values as produced by Python's `json.load`. Numbers are modelled by
`Int` (the fractional part plays no role in truthiness for the inputs that
matter here). -/
inductive Json where
  | null : Json
  | bool (b : Bool) : Json
  | num (n : Int) : Json
  | str (s : String) : Json
  | arr (elems : List Json) : Json
  | obj (entries : List (String × Json)) : Json

/-- Python truthiness of a JSON value: `None`, `False`, `0`, `""`, `[]`, `{}`
are falsy, everything else truthy. -/
def Json.truthy : Json → Bool
  | .null => false
  | .bool b => b
  | .num n => n != 0
  | .str s => s != ""
  | .arr elems => !elems.isEmpty
  | .obj entries => !entries.isEmpty

/-- Python truthiness of an `Optional` value: `None` is falsy. -/
def optTruthy : Option Json → Bool
  | none => false
  | some j => j.truthy

/-- `d.get(k)` on a Python dict modelled as an association list (keys are
unique in a dict produced by `json.load`; lookup is first-match). -/
def dictGet (entries : List (String × Json)) (k : String) : Option Json :=
  match entries with
  | [] => none
  | kv :: rest => if kv.1 = k then some kv.2 else dictGet rest k

/-- `d.get(k, default)` on a Python dict. -/
def dictGetD (entries : List (String × Json)) (k : String) (dflt : Json) : Json :=
  (dictGet entries k).getD dflt

/-- One pass of Python's `str.replace` over a character list, with explicit
fuel (one unit per character consumed; `s.length` is always enough because a
non-empty pattern consumes at least one character per step). Structural in the
fuel so that it evaluates by `rfl`/`decide`. -/
def replaceAllF (p r : List Char) : Nat → List Char → List Char
  | 0, s => s
  | _ + 1, [] => []
  | fuel + 1, c :: rest =>
    if !p.isEmpty && p.isPrefixOf (c :: rest) then
      r ++ replaceAllF p r fuel ((c :: rest).drop p.length)
    else
      c :: replaceAllF p r fuel rest

/-- Python's `s.replace(p, r)` for a non-empty pattern `p`: replace every
occurrence of `p` in `s` by `r`, scanning left to right, non-overlapping.
(For the empty pattern Python interleaves `r` between characters; the code
under verification only calls `replace` with a resolved IP address as the
pattern, which is never empty, and this model returns `s` unchanged then.) -/
def pyReplace (s p r : String) : String :=
  ⟨replaceAllF p.data r.data s.data.length s.data⟩

/-- Python's `p in s` substring test on character lists. -/
def hasSubstring (p : List Char) : List Char → Bool
  | [] => p.isEmpty
  | c :: rest => p.isPrefixOf (c :: rest) || hasSubstring p rest

/-- The error taxonomy of the routine. The Python code raises `ValueError`
with distinct messages (and lets `socket.gaierror` escape, and would hit
`AttributeError` on non-dict values); the spec's taxonomy names these cases,
and the constructors record which distinct raise site fired. -/
inductive MErr where
  | configFormat : MErr
  | notLoaded : MErr
  | unknownProfile (name : String) : MErr
  | missingAttributes : MErr
  | attributeError : MErr
  | hostResolution : MErr
deriving DecidableEq

/-- The mutable state of a `MinioConfig` instance: the loaded configuration
document and the five connection attributes. All start as `None` in
`__init__`. (The `config_file_path` field only feeds the external file-chooser
collaborator and carries no information used by the routine.) -/
structure MinioConfig where
  configs : Option Json
  endpoint_url : Option Json
  aws_access_key_id : Option Json
  aws_secret_access_key : Option Json
  region_name : Option Json
  signature_version : Option Json

/-- The state set up by `__init__`: everything `None`. -/
def MinioConfig.init : MinioConfig :=
  { configs := none, endpoint_url := none, aws_access_key_id := none,
    aws_secret_access_key := none, region_name := none, signature_version := none }

/-- `read_config`: `json.load` is the external parser; its outcome is the
parameter (`none` = the file content is not valid JSON, so `json.JSONDecodeError`
was raised and is re-raised as `ValueError`, the spec's `ConfigFormatError`).
Any successfully parsed value is returned as-is: the code performs no check
that the value is an object of objects. -/
def MinioConfig.read_config (parsed : Option Json) : Except MErr Json :=
  match parsed with
  | none => .error .configFormat
  | some j => .ok j

/-- `load_config`: assigns `self.configs` from `read_config`; if `read_config`
raises, the assignment never happens and `configs` keeps its previous value. -/
def MinioConfig.load_config (c : MinioConfig) (parsed : Option Json) :
    MinioConfig × Option MErr :=
  match MinioConfig.read_config parsed with
  | .error e => (c, some e)
  | .ok j => ({ c with configs := some j }, none)

/-- `ensure_configs_loaded`: `if not self.configs: raise ValueError(...)` —
a truthiness test, so `None` and every falsy loaded value (in particular the
empty object) raise the not-loaded error. -/
def MinioConfig.ensure_configs_loaded (c : MinioConfig) : Option MErr :=
  match c.configs with
  | none => some .notLoaded
  | some j => if j.truthy then none else some .notLoaded

/-- `get_machine_config`: `self.configs.get(machine_name)` followed by a
truthiness test on the result. Calling `.get` on a non-dict value would raise
`AttributeError`. -/
def MinioConfig.get_machine_config (c : MinioConfig) (machine_name : String) :
    Except MErr Json :=
  match c.configs with
  | some (.obj entries) =>
    match dictGet entries machine_name with
    | none => .error (.unknownProfile machine_name)
    | some v => if v.truthy then .ok v else .error (.unknownProfile machine_name)
  | _ => .error .attributeError

/-- `validate_attributes`: `all([...])` over the three required attributes,
i.e. a Python-truthiness check, not a string-shape check. -/
def MinioConfig.validate_attributes (c : MinioConfig) : Option MErr :=
  if optTruthy c.endpoint_url && optTruthy c.aws_access_key_id
      && optTruthy c.aws_secret_access_key then
    none
  else
    some .missingAttributes

/-- `set_connection_attributes`: writes the five attributes (with the two
defaults) and only then validates, so on a validation failure the state has
already been overwritten. `.get` on a non-dict selected config would raise
`AttributeError` before any assignment. -/
def MinioConfig.set_connection_attributes (c : MinioConfig) (config : Json) :
    MinioConfig × Option MErr :=
  match config with
  | .obj entries =>
    let c' : MinioConfig :=
      { c with
        endpoint_url := dictGet entries "endpoint_url",
        aws_access_key_id := dictGet entries "aws_access_key_id",
        aws_secret_access_key := dictGet entries "aws_secret_access_key",
        region_name := some (dictGetD entries "region_name" (.str "us-east-1")),
        signature_version := some (dictGetD entries "signature_version" (.str "s3v4")) }
    (c', c'.validate_attributes)
  | _ => (c, some .attributeError)

/-- `get_mac_ip`: `socket.gethostbyname(MAC_HOSTNAME)` with `socket.gaierror`
caught and turned into `None`. The resolution outcome is the parameter. -/
def MinioConfig.get_mac_ip (macResolve : Option String) : Option String :=
  macResolve

/-- `adjust_endpoint_ip`: resolve the reference host (soft), resolve the
current host (a `socket.gaierror` here escapes uncaught — the spec's fatal
`HostResolutionError`), and when the reference IP is truthy, differs from the
current IP and the endpoint is truthy, replace every occurrence of the
reference IP in the endpoint with the current IP. `.replace` on a non-string
truthy endpoint would raise `AttributeError`. -/
def MinioConfig.adjust_endpoint_ip (c : MinioConfig)
    (macResolve currentResolve : Option String) : MinioConfig × Option MErr :=
  let mac_ip := MinioConfig.get_mac_ip macResolve
  match currentResolve with
  | none => (c, some .hostResolution)
  | some current_ip =>
    match mac_ip with
    | none => (c, none)
    | some m =>
      if m != "" && current_ip != m then
        match c.endpoint_url with
        | none => (c, none)
        | some j =>
          if j.truthy then
            match j with
            | .str s =>
              ({ c with endpoint_url := some (.str (pyReplace s m current_ip)) }, none)
            | _ => (c, some .attributeError)
          else (c, none)
      else (c, none)

/-- `select_machine`: ensure loaded, look the profile up, set the attributes,
adjust the endpoint; each raise aborts the rest but keeps the mutations made
so far. -/
def MinioConfig.select_machine (c : MinioConfig) (machine_name : String)
    (macResolve currentResolve : Option String) : MinioConfig × Option MErr :=
  match c.ensure_configs_loaded with
  | some e => (c, some e)
  | none =>
    match c.get_machine_config machine_name with
    | .error e => (c, some e)
    | .ok cfg =>
      match c.set_connection_attributes cfg with
      | (c₁, some e) => (c₁, some e)
      | (c₁, none) => c₁.adjust_endpoint_ip macResolve currentResolve

/-- `list_machines`: ensure loaded, then `list(self.configs.keys())`
(`.keys` on a non-dict value would raise `AttributeError`). -/
def MinioConfig.list_machines (c : MinioConfig) : Except MErr (List String) :=
  match c.ensure_configs_loaded with
  | some e => .error e
  | none =>
    match c.configs with
    | some (.obj entries) => .ok (entries.map Prod.fst)
    | _ => .error .attributeError

/-- Modelled from the spec: the spec's phrase "an object mapping profile names
to attribute objects" (an object of objects), used only to compare the spec's
claimed validation against what `read_config` actually checks. -/
def specObjectOfObjects : Json → Bool
  | .obj entries => entries.all fun kv =>
      match kv.2 with
      | .obj _ => true
      | _ => false
  | _ => false

/-- If the pattern does not occur in the string, the replacement scan leaves
the string unchanged, whatever the fuel. -/
theorem replaceAllF_eq_self_of_not_sub (p r : List Char) :
    ∀ (fuel : Nat) (s : List Char), hasSubstring p s = false →
      replaceAllF p r fuel s = s := by
  intro fuel
  induction fuel with
  | zero => intro s _; rfl
  | succ n ih =>
    intro s h
    cases s with
    | nil => rfl
    | cons c rest =>
      rw [hasSubstring, Bool.or_eq_false_iff] at h
      simp [replaceAllF, h.1, ih rest h.2]

/-- `pyReplace` is the identity when the pattern is not a substring. -/
theorem pyReplace_eq_self_of_not_sub (s p r : String)
    (h : hasSubstring p.data s.data = false) : pyReplace s p r = s := by
  unfold pyReplace
  rw [replaceAllF_eq_self_of_not_sub p.data r.data s.data.length s.data h]

/-- C6: whenever the reference host's resolved address and the current host's
resolved address are equal, `adjust_endpoint_ip` raises no error and leaves
the whole state — in particular the endpoint URL — unchanged. -/
theorem C6_adjust_identity_on_equal_ips (c : MinioConfig) (ip : String) :
    c.adjust_endpoint_ip (some ip) (some ip) = (c, none) := by
  simp [MinioConfig.adjust_endpoint_ip, MinioConfig.get_mac_ip]

/-- C7: when resolution of the reference hostname fails (`get_mac_ip` caught
the `socket.gaierror` and returned `None`) but the current host resolves,
adjustment is skipped with no error and the state is untouched; when the
current host's own resolution fails, the error propagates as the fatal
host-resolution error, whatever the reference resolution did. -/
theorem C7_soft_reference_fatal_current (c : MinioConfig) (cip : String)
    (macResolve : Option String) :
    c.adjust_endpoint_ip none (some cip) = (c, none)
    ∧ c.adjust_endpoint_ip macResolve none = (c, some MErr.hostResolution) := by
  constructor
  · simp [MinioConfig.adjust_endpoint_ip, MinioConfig.get_mac_ip]
  · simp [MinioConfig.adjust_endpoint_ip, MinioConfig.get_mac_ip]

/-- C2: when both hosts resolve, to different addresses, and the endpoint is a
string, `adjust_endpoint_ip` succeeds and rewrites the endpoint to the result
of replacing every literal occurrence of the reference IP by the current IP
(Python `str.replace` semantics, embedded as `pyReplace`); in particular, when
the reference IP does not occur as a substring the endpoint is unchanged. -/
theorem C2_adjust_replaces_all_occurrences (c : MinioConfig) (s m cip : String)
    (h : c.endpoint_url = some (.str s)) (hm : m ≠ "") (hne : cip ≠ m) :
    c.adjust_endpoint_ip (some m) (some cip)
      = ({ c with endpoint_url := some (.str (pyReplace s m cip)) }, none)
    ∧ (hasSubstring m.data s.data = false → pyReplace s m cip = s) := by
  refine ⟨?_, fun hsub => pyReplace_eq_self_of_not_sub s m cip hsub⟩
  by_cases hs : s = ""
  · subst hs
    simp only [MinioConfig.adjust_endpoint_ip, MinioConfig.get_mac_ip, h]
    rw [if_pos (by simp [hm, hne])]
    simp only [Json.truthy]
    rw [if_neg (by simp)]
    rw [show pyReplace "" m cip = "" from rfl, ← h]
  · simp only [MinioConfig.adjust_endpoint_ip, MinioConfig.get_mac_ip, h]
    rw [if_pos (by simp [hm, hne])]
    simp only [Json.truthy]
    rw [if_pos (by simp [hs])]

/-- The state used to witness C2: fresh instance whose endpoint is the spec's
example URL. -/
def c2Input : MinioConfig :=
  { MinioConfig.init with endpoint_url := some (.str "http://10.0.0.5:9000") }

/-- C2 witness: the spec's concrete example — endpoint `http://10.0.0.5:9000`,
reference IP `10.0.0.5`, current IP `10.0.0.9` — rewrites to
`http://10.0.0.9:9000`. -/
theorem C2_adjust_replaces_all_occurrences_witness :
    c2Input.adjust_endpoint_ip (some "10.0.0.5") (some "10.0.0.9")
      = ({ c2Input with endpoint_url := some (.str "http://10.0.0.9:9000") }, none) := by
  have h := C2_adjust_replaces_all_occurrences c2Input "http://10.0.0.5:9000"
    "10.0.0.5" "10.0.0.9" rfl (by decide) (by decide)
  rw [h.1]
  rfl

/-- C1 counterexample: the empty JSON array is valid JSON that is not an
object mapping profile names to attribute objects, yet `load_config` accepts
it without any error and stores it as the configuration — refuting "fails
with `ConfigFormatError` exactly when the content is not valid JSON or not an
object mapping profile names to attribute objects". -/
theorem C1_counterexample_nonobject_accepted :
    specObjectOfObjects (Json.arr []) = false
    ∧ MinioConfig.load_config MinioConfig.init (some (Json.arr []))
        = ({ MinioConfig.init with configs := some (Json.arr []) }, none) :=
  ⟨rfl, rfl⟩

/-- C1 (amended): `load_config` fails, with the config-format error, exactly
when the content is not valid JSON (the parse outcome is `none`); no check of
the parsed value's shape is performed, so any parsed JSON value is accepted.
On the failure the state — in particular the `configs` field — is exactly as
before the call (never partially populated). -/
theorem C1_load_fails_iff_invalid_json (c : MinioConfig) :
    MinioConfig.load_config c none = (c, some MErr.configFormat)
    ∧ ∀ j : Json, MinioConfig.load_config c (some j)
        = ({ c with configs := some j }, none) :=
  ⟨rfl, fun _ => rfl⟩

/-- C3: on a loaded document, selecting a present profile whose three required
attributes are non-empty strings succeeds (no error), and the resulting
connection attributes equal the profile's values, with `region_name` and
`signature_version` taking the profile's values when present and the defaults
`"us-east-1"` / `"s3v4"` when the keys are omitted (`dictGetD`). The two
resolution outcomes are equal here, so the endpoint-adjustment step (settled
separately by the adjustment claims) leaves the endpoint as the profile wrote
it. -/
theorem C3_select_present_profile_succeeds (c : MinioConfig)
    (doc prof : List (String × Json)) (name e a k ip : String)
    (hc : c.configs = some (.obj doc))
    (hdoc : dictGet doc name = some (.obj prof))
    (he : dictGet prof "endpoint_url" = some (.str e)) (he' : e ≠ "")
    (ha : dictGet prof "aws_access_key_id" = some (.str a)) (ha' : a ≠ "")
    (hk : dictGet prof "aws_secret_access_key" = some (.str k)) (hk' : k ≠ "") :
    c.select_machine name (some ip) (some ip)
      = ({ c with
            endpoint_url := some (.str e),
            aws_access_key_id := some (.str a),
            aws_secret_access_key := some (.str k),
            region_name := some (dictGetD prof "region_name" (.str "us-east-1")),
            signature_version := some (dictGetD prof "signature_version" (.str "s3v4")) },
         none)
    ∧ (dictGet prof "region_name" = none →
        dictGetD prof "region_name" (.str "us-east-1") = .str "us-east-1")
    ∧ (dictGet prof "signature_version" = none →
        dictGetD prof "signature_version" (.str "s3v4") = .str "s3v4") := by
  have hdoc0 : doc.isEmpty = false := by
    cases doc
    · simp [dictGet] at hdoc
    · rfl
  have hprof0 : prof.isEmpty = false := by
    cases prof
    · simp [dictGet] at he
    · rfl
  refine ⟨?_, fun h0 => by simp [dictGetD, h0], fun h0 => by simp [dictGetD, h0]⟩
  simp only [MinioConfig.select_machine, MinioConfig.ensure_configs_loaded, hc,
    Json.truthy, hdoc0, Bool.not_false, if_true, MinioConfig.get_machine_config,
    hdoc, hprof0, MinioConfig.set_connection_attributes,
    MinioConfig.validate_attributes, he, ha, hk, optTruthy,
    MinioConfig.adjust_endpoint_ip, MinioConfig.get_mac_ip]
  rw [if_pos (by simp [he', ha', hk'])]
  simp

/-- The profile used to witness C3: the three required attributes only. -/
def c3Profile : List (String × Json) :=
  [("endpoint_url", .str "http://10.0.0.5:9000"),
   ("aws_access_key_id", .str "minioadmin"),
   ("aws_secret_access_key", .str "miniosecret")]

/-- The loaded state used to witness C3. -/
def c3State : MinioConfig :=
  { MinioConfig.init with configs := some (.obj [("mac", .obj c3Profile)]) }

/-- C3 witness: selecting the profile above succeeds, carries the three
required attributes over unchanged and fills both defaults. -/
theorem C3_select_present_profile_succeeds_witness :
    c3State.select_machine "mac" (some "10.0.0.5") (some "10.0.0.5")
      = ({ c3State with
            endpoint_url := some (.str "http://10.0.0.5:9000"),
            aws_access_key_id := some (.str "minioadmin"),
            aws_secret_access_key := some (.str "miniosecret"),
            region_name := some (.str "us-east-1"),
            signature_version := some (.str "s3v4") }, none) := by
  have h := C3_select_present_profile_succeeds c3State [("mac", .obj c3Profile)]
    c3Profile "mac" "http://10.0.0.5:9000" "minioadmin" "miniosecret" "10.0.0.5"
    rfl rfl rfl (by decide) rfl (by decide) rfl (by decide)
  rw [h.1]
  rfl

/-- The state used for the C4 counterexample: a successfully loaded document
that is the empty object. -/
def c4EmptyState : MinioConfig :=
  { MinioConfig.init with configs := some (.obj []) }

/-- C4 counterexample: on a loaded (empty) document, selecting the absent
profile `"mac"` fails with the not-loaded error, not the unknown-profile
error, because `ensure_configs_loaded` treats the falsy empty dict as not
loaded — refuting "always fails with `UnknownProfileError`" for every loaded
document. -/
theorem C4_counterexample_empty_document :
    c4EmptyState.select_machine "mac" none none = (c4EmptyState, some MErr.notLoaded)
    ∧ MErr.notLoaded ≠ MErr.unknownProfile "mac" :=
  ⟨rfl, by decide⟩

/-- C4 (amended): on a loaded non-empty document, selecting a profile name
that is absent — or whose associated value is falsy — always fails with the
unknown-profile error (and leaves the state unchanged). -/
theorem C4_absent_profile_unknown_error (c : MinioConfig)
    (doc : List (String × Json)) (name : String) (macResolve currResolve : Option String)
    (hc : c.configs = some (.obj doc)) (hd : doc ≠ [])
    (habs : ∀ v, dictGet doc name = some v → v.truthy = false) :
    c.select_machine name macResolve currResolve
      = (c, some (MErr.unknownProfile name)) := by
  have hdoc0 : doc.isEmpty = false := by
    cases doc
    · exact absurd rfl hd
    · rfl
  have htr : (Json.obj doc).truthy = true := by simp [Json.truthy, hdoc0]
  cases hv : dictGet doc name with
  | none =>
    simp [MinioConfig.select_machine, MinioConfig.ensure_configs_loaded, hc,
      htr, MinioConfig.get_machine_config, hv]
  | some v =>
    simp [MinioConfig.select_machine, MinioConfig.ensure_configs_loaded, hc,
      htr, MinioConfig.get_machine_config, hv, habs v hv]

/-- C4 witness: a one-profile document and a name not in it. -/
theorem C4_absent_profile_unknown_error_witness :
    ({ MinioConfig.init with
        configs := some (.obj [("mac", .obj c3Profile)]) } :
      MinioConfig).select_machine "laptop" none (some "10.0.0.9")
      = ({ MinioConfig.init with configs := some (.obj [("mac", .obj c3Profile)]) },
         some (MErr.unknownProfile "laptop")) := by
  exact C4_absent_profile_unknown_error _ [("mac", .obj c3Profile)] "laptop" none
    (some "10.0.0.9") rfl (by simp) (fun v h => by simp [dictGet] at h)

/-- The profile used for the C5 counterexample: `endpoint_url` is the number
`5` — present, truthy, but not a string at all (in particular not a non-empty
string). -/
def c5Profile : List (String × Json) :=
  [("endpoint_url", .num 5),
   ("aws_access_key_id", .str "minioadmin"),
   ("aws_secret_access_key", .str "miniosecret")]

/-- The loaded state used for the C5 counterexample. -/
def c5State : MinioConfig :=
  { MinioConfig.init with configs := some (.obj [("mac", .obj c5Profile)]) }

/-- C5 counterexample: the profile's `endpoint_url` is `5`, which is not a
non-empty string, yet selection raises no error at all (the validation is a
truthiness test, and `5` is truthy) — refuting "fails with
`MissingAttributesError`" for every required attribute that is not a
non-empty string. (Reference resolution fails here, so the adjustment step is
a soft no-op and the call completes.) -/
theorem C5_counterexample_truthy_nonstring_accepted :
    dictGet c5Profile "endpoint_url" = some (Json.num 5)
    ∧ (c5State.select_machine "mac" none (some "10.0.0.9")).2 = none :=
  ⟨rfl, rfl⟩

/-- C5 (amended): on a loaded document, selecting a present profile whose
value is a non-empty attribute object in which any of the three required
attributes is absent or Python-falsy (for string values: absent or the empty
string) fails with the missing-attributes error. -/
theorem C5_falsy_required_attribute_fails (c : MinioConfig)
    (doc prof : List (String × Json)) (name : String)
    (macResolve currResolve : Option String)
    (hc : c.configs = some (.obj doc))
    (hdoc : dictGet doc name = some (.obj prof)) (hp : prof ≠ [])
    (hmiss : (optTruthy (dictGet prof "endpoint_url")
        && optTruthy (dictGet prof "aws_access_key_id")
        && optTruthy (dictGet prof "aws_secret_access_key")) = false) :
    (c.select_machine name macResolve currResolve).2
      = some MErr.missingAttributes := by
  have hdoc0 : doc.isEmpty = false := by
    cases doc
    · simp [dictGet] at hdoc
    · rfl
  have hprof0 : prof.isEmpty = false := by
    cases prof
    · exact absurd rfl hp
    · rfl
  have htr : (Json.obj doc).truthy = true := by simp [Json.truthy, hdoc0]
  have htr' : (Json.obj prof).truthy = true := by simp [Json.truthy, hprof0]
  simp only [MinioConfig.select_machine, MinioConfig.ensure_configs_loaded, hc,
    htr, if_true, MinioConfig.get_machine_config, hdoc, htr',
    MinioConfig.set_connection_attributes, MinioConfig.validate_attributes]
  rw [if_neg (by simp [hmiss])]

/-- The profile used to witness amended C5: `aws_secret_access_key` absent. -/
def c5WitnessProfile : List (String × Json) :=
  [("endpoint_url", .str "http://10.0.0.5:9000"),
   ("aws_access_key_id", .str "minioadmin")]

/-- C5 witness: a present profile lacking `aws_secret_access_key` makes
selection fail with the missing-attributes error. -/
theorem C5_falsy_required_attribute_fails_witness :
    (({ MinioConfig.init with
        configs := some (.obj [("mac", .obj c5WitnessProfile)]) } :
      MinioConfig).select_machine "mac" none (some "10.0.0.9")).2
      = some MErr.missingAttributes := by
  exact C5_falsy_required_attribute_fails _ [("mac", .obj c5WitnessProfile)]
    c5WitnessProfile "mac" none (some "10.0.0.9") rfl rfl (by simp [c5WitnessProfile]) rfl

/-- C8: in any state where no document has been loaded (`configs` is `None`),
`select_machine` fails with the not-loaded error for every profile name and
every resolution outcome, leaving the state unchanged. -/
theorem C8_select_before_load_not_loaded (c : MinioConfig) (name : String)
    (macResolve currResolve : Option String) (h : c.configs = none) :
    c.select_machine name macResolve currResolve = (c, some MErr.notLoaded) := by
  simp [MinioConfig.select_machine, MinioConfig.ensure_configs_loaded, h]

/-- C8 witness: the freshly constructed state. -/
theorem C8_select_before_load_not_loaded_witness :
    MinioConfig.init.select_machine "mac" none none
      = (MinioConfig.init, some MErr.notLoaded) :=
  C8_select_before_load_not_loaded MinioConfig.init "mac" none none rfl

/-- C9: selection is not atomic on validation failure. On a loaded document,
selecting a present non-empty profile object whose required attributes do not
all pass the truthiness validation fails with the missing-attributes error,
but in the state after the raise the five connection attributes have already
been overwritten with the failing profile's values: `None` (the failed
`dictGet`) for the missing required keys and the defaults for the omitted
optional keys — any previously resolved connection is lost. -/
theorem C9_validation_failure_overwrites_state (c : MinioConfig)
    (doc prof : List (String × Json)) (name : String)
    (macResolve currResolve : Option String)
    (hc : c.configs = some (.obj doc))
    (hdoc : dictGet doc name = some (.obj prof)) (hp : prof ≠ [])
    (hmiss : (optTruthy (dictGet prof "endpoint_url")
        && optTruthy (dictGet prof "aws_access_key_id")
        && optTruthy (dictGet prof "aws_secret_access_key")) = false) :
    c.select_machine name macResolve currResolve
      = ({ c with
            endpoint_url := dictGet prof "endpoint_url",
            aws_access_key_id := dictGet prof "aws_access_key_id",
            aws_secret_access_key := dictGet prof "aws_secret_access_key",
            region_name := some (dictGetD prof "region_name" (.str "us-east-1")),
            signature_version := some (dictGetD prof "signature_version" (.str "s3v4")) },
         some MErr.missingAttributes) := by
  have hdoc0 : doc.isEmpty = false := by
    cases doc
    · simp [dictGet] at hdoc
    · rfl
  have hprof0 : prof.isEmpty = false := by
    cases prof
    · exact absurd rfl hp
    · rfl
  have htr : (Json.obj doc).truthy = true := by simp [Json.truthy, hdoc0]
  have htr' : (Json.obj prof).truthy = true := by simp [Json.truthy, hprof0]
  simp only [MinioConfig.select_machine, MinioConfig.ensure_configs_loaded, hc,
    htr, if_true, MinioConfig.get_machine_config, hdoc, htr',
    MinioConfig.set_connection_attributes, MinioConfig.validate_attributes]
  rw [if_neg (by simp [hmiss])]

/-- A state holding a previously resolved connection, used to witness C9. -/
def c9PriorState : MinioConfig :=
  { configs := some (.obj [("mac", .obj c5WitnessProfile)]),
    endpoint_url := some (.str "http://192.168.0.2:9000"),
    aws_access_key_id := some (.str "oldkey"),
    aws_secret_access_key := some (.str "oldsecret"),
    region_name := some (.str "eu-west-1"),
    signature_version := some (.str "s3") }

/-- C9 witness: selecting the profile that lacks `aws_secret_access_key`
raises the missing-attributes error and has already replaced the prior
resolved connection: the secret is now `None`, the others are the failing
profile's values and the defaults. -/
theorem C9_validation_failure_overwrites_state_witness :
    c9PriorState.select_machine "mac" (some "10.0.0.5") (some "10.0.0.5")
      = ({ c9PriorState with
            endpoint_url := some (.str "http://10.0.0.5:9000"),
            aws_access_key_id := some (.str "minioadmin"),
            aws_secret_access_key := none,
            region_name := some (.str "us-east-1"),
            signature_version := some (.str "s3v4") },
         some MErr.missingAttributes) := by
  have h := C9_validation_failure_overwrites_state c9PriorState
    [("mac", .obj c5WitnessProfile)] c5WitnessProfile "mac"
    (some "10.0.0.5") (some "10.0.0.5") rfl rfl (by simp [c5WitnessProfile]) rfl
  rw [h]
  rfl

/-- C10: after a successful load of the empty JSON object (zero profiles),
every selection and every listing of profile names fails with the not-loaded
error: the loaded-but-empty document is indistinguishable from no document,
because `ensure_configs_loaded` is a truthiness test and `{}` is falsy. -/
theorem C10_empty_document_behaves_as_not_loaded (c : MinioConfig)
    (name : String) (macResolve currResolve : Option String) :
    (MinioConfig.load_config c (some (.obj []))).2 = none
    ∧ ((MinioConfig.load_config c (some (.obj []))).1).select_machine
        name macResolve currResolve
        = ((MinioConfig.load_config c (some (.obj []))).1, some MErr.notLoaded)
    ∧ ((MinioConfig.load_config c (some (.obj []))).1).list_machines
        = .error MErr.notLoaded := by
  refine ⟨rfl, ?_, ?_⟩
  · simp [MinioConfig.load_config, MinioConfig.read_config,
      MinioConfig.select_machine, MinioConfig.ensure_configs_loaded, Json.truthy]
  · simp [MinioConfig.load_config, MinioConfig.read_config,
      MinioConfig.list_machines, MinioConfig.ensure_configs_loaded, Json.truthy]
